import Mathlib

/-!
Shallow embedding of `streaming_data_manager.py` (class `CSVStreamingManager`)
from the InventoryOpt repository, together with theorems settling the spec
claims about it.

Modelling conventions:
* A pandas `DataFrame` is a list of column names plus a list of rows, each row
  a list of cell values aligned with the columns.  Cell values are integers or
  strings (`Value`).  A column has numeric dtype when it is nonempty and every
  cell is an integer (mirrors pandas dtype inference; an empty frame's columns
  get object dtype).
* The manager instance state that the claims touch is `ManagerState`:
  `last_modified`, `last_data`, `subscribers`.  Subscriber callbacks are
  identified by natural numbers; whether a callback raises when invoked is an
  arbitrary function `raises : Cb -> Bool` threaded through dispatch.
* External effects of one processing attempt are returned explicitly in
  `StepResult`: the list of subscriber invocations performed by
  `_notify_subscribers` and the `(data, changes)` pair handed to
  `_broadcast_data` (or `none` when the attempt aborted).
* Filesystem reads are inputs: `pd.read_csv` that raises is `parsed = none`;
  `Path.stat().st_mtime` that raises is `mtime = none`.  The two `stat` calls
  of one loop iteration (line 257 and line 283 of the source) are modelled as
  returning the same value.
* The wall-clock `datetime.now()` timestamp stored inside the update-changes
  dict is not modelled (no claim refers to its value); the summary's timestamp
  is passed in as a `now` parameter.  The content of
  `describe().to_dict()` (an external pandas computation) is abstracted to the
  list of numeric columns it is computed over; only its presence matters to
  the claims.
-/

namespace InventoryOpt

/-- A cell value of the tabular data: integer or string. -/
inductive Value where
  | int (n : Int)
  | str (s : String)
  deriving DecidableEq

/-- A parsed tabular snapshot: column names plus rows of cells aligned with
the columns (models a pandas `DataFrame`). -/
structure DataFrame where
  columns : List String
  rows : List (List Value)
  deriving DecidableEq

/-- Cell of a row under a named column (`row[df.columns.index c]`). -/
def DataFrame.cellAt (df : DataFrame) (row : List Value) (c : String) : Option Value :=
  match df.columns.findIdx? (fun s => s == c) with
  | none => none
  | some i => row[i]?

/-- All cells of a named column (`df[c]`). -/
def DataFrame.col (df : DataFrame) (c : String) : List Value :=
  df.rows.filterMap (fun row => df.cellAt row c)

/-- Models `len(new_data[new_data['Inventory Level'] < 10])`. -/
def countLowStock (df : DataFrame) : Nat :=
  (df.rows.filter (fun row =>
    match df.cellAt row "Inventory Level" with
    | some (Value.int n) => decide (n < 10)
    | _ => false)).length

/-- Models `len(new_data[new_data['Inventory Level'] == 0])`. -/
def countOutOfStock (df : DataFrame) : Nat :=
  (df.rows.filter (fun row =>
    match df.cellAt row "Inventory Level" with
    | some (Value.int n) => decide (n = 0)
    | _ => false)).length

/-- A column has numeric dtype: nonempty and every cell an integer. -/
def isNumericCol (df : DataFrame) (c : String) : Bool :=
  !(df.col c).isEmpty && (df.col c).all (fun v =>
    match v with
    | Value.int _ => true
    | Value.str _ => false)

/-- Models `df.select_dtypes(include=[np.number]).columns`. -/
def numeric_columns (df : DataFrame) : List String :=
  df.columns.filter (fun c => isNumericCol df c)

/-- Total comparison on cell values (ints by value, strings lexicographic;
an int sorts before a string) backing the `min`/`max` of a column. -/
def vle : Value → Value → Bool
  | Value.int a, Value.int b => decide (a ≤ b)
  | Value.str a, Value.str b => (compare a b) != Ordering.gt
  | Value.int _, Value.str _ => true
  | Value.str _, Value.int _ => false

/-- Minimum of a list of cells (`series.min()`), `none` when empty. -/
def colMin (vs : List Value) : Option Value :=
  vs.foldl (fun acc v =>
    match acc with
    | none => some v
    | some w => if vle v w then some v else some w) none

/-- Maximum of a list of cells (`series.max()`), `none` when empty. -/
def colMax (vs : List Value) : Option Value :=
  vs.foldl (fun acc v =>
    match acc with
    | none => some v
    | some w => if vle w v then some v else some w) none

/-- Models the `date_range` entry of `get_data_summary`: min and max of the
`Date` column when present, else `(None, None)`. -/
def date_range (df : DataFrame) : Option Value × Option Value :=
  if df.columns.contains "Date" then (colMin (df.col "Date"), colMax (df.col "Date"))
  else (none, none)

/-- The fixed required-column list `self.expected_columns`. -/
def expected_columns : List String :=
  ["Date", "Store ID", "Product ID", "Category", "Region",
   "Inventory Level", "Units Sold", "Units Ordered", "Demand Forecast",
   "Price", "Discount", "Weather Condition", "Holiday/Promotion",
   "Competitor Pricing", "Seasonality"]

/-- Models `_validate_columns`: every expected column occurs in the frame. -/
def validate_columns (df : DataFrame) : Bool :=
  expected_columns.all (fun c => df.columns.contains c)

/-- Subscriber callbacks are identified by naturals. -/
abbrev Cb := Nat

/-- The `changes` dict built by `_calculate_changes`: either the initial-load
record `{"type": "initial_load", "rows": n}` or the update record carrying
`total_rows` and, when both frames have the inventory column, the
`inventory_changes` pair `(low_stock, out_of_stock)`. -/
inductive Changes where
  | initial_load (rows : Nat)
  | update (total_rows : Nat) (inventory_changes : Option (Nat × Nat))
  deriving DecidableEq

/-- Models `_calculate_changes(new_data)` with `prev = self.last_data` at call
time.  Note the inventory counts are taken over `new_data`; `prev` is only
consulted for the presence of the inventory column. -/
def calculate_changes (prev : Option DataFrame) (new_data : DataFrame) : Changes :=
  match prev with
  | none => Changes.initial_load new_data.rows.length
  | some last =>
      Changes.update new_data.rows.length
        (if new_data.columns.contains "Inventory Level" &&
            last.columns.contains "Inventory Level" then
          some (countLowStock new_data, countOutOfStock new_data)
        else none)

/-- One subscriber invocation performed during `_notify_subscribers`: which
callback ran, the pair it received, and whether it raised (the exception is
caught and logged by the dispatch loop). -/
structure Invocation where
  cb : Cb
  data : DataFrame
  changes : Changes
  raised : Bool
  deriving DecidableEq

/-- Models the dispatch loop of `_notify_subscribers`: every subscriber in the
list is called in order with the same `(data, changes)` pair; a raised
exception is caught and the loop continues with the next subscriber. -/
def notify_subscribers (raises : Cb → Bool) (data : DataFrame) (changes : Changes) :
    List Cb → List Invocation
  | [] => []
  | c :: rest =>
      { cb := c, data := data, changes := changes, raised := raises c } ::
        notify_subscribers raises data changes rest

/-- The fields of the `CSVStreamingManager` instance the claims touch. -/
structure ManagerState where
  last_modified : Option Nat
  last_data : Option DataFrame
  subscribers : List Cb
  deriving DecidableEq

/-- State after `__init__`. -/
def initState : ManagerState :=
  { last_modified := none, last_data := none, subscribers := [] }

/-- Result of one processing attempt: the new instance state, the subscriber
invocations performed, and the pair handed to `_broadcast_data` (none when
the attempt aborted before notification). -/
structure StepResult where
  state : ManagerState
  notified : List Invocation
  broadcast : Option (DataFrame × Changes)
  deriving DecidableEq

/-- Models `_handle_file_change`.  `parsed = none` means `pd.read_csv` raised
(the exception is caught by the method's `except` and logged).  `mtime` is the
value of `csv_path.stat().st_mtime` during the attempt.  Order follows the
source: validate, record `last_modified`, compute changes against the old
`last_data`, install the new data, notify, broadcast. -/
def handle_file_change (raises : Cb → Bool) (st : ManagerState)
    (parsed : Option DataFrame) (mtime : Nat) : StepResult :=
  match parsed with
  | none => { state := st, notified := [], broadcast := none }
  | some new_data =>
      if validate_columns new_data then
        let changes := calculate_changes st.last_data new_data
        let st2 := { st with last_modified := some mtime, last_data := some new_data }
        { state := st2
          notified := notify_subscribers raises new_data changes st2.subscribers
          broadcast := some (new_data, changes) }
      else
        { state := st, notified := [], broadcast := none }

/-- Models `subscribe`: unconditional append. -/
def subscribe (st : ManagerState) (c : Cb) : ManagerState :=
  { st with subscribers := st.subscribers ++ [c] }

/-- Models `unsubscribe`: remove the first matching registration if present. -/
def unsubscribe (st : ManagerState) (c : Cb) : ManagerState :=
  if st.subscribers.contains c then { st with subscribers := st.subscribers.erase c }
  else st

/-- The change test of the streaming loop:
`self.last_modified is None or current_modified > self.last_modified`. -/
def poll_signal : Option Nat → Nat → Bool
  | none, _ => true
  | some lm, m => decide (lm < m)

/-- External events driving the manager: a subscription change, or one
iteration of the streaming loop.  In a loop iteration `mtime = none` means
`csv_path.stat()` raised (caught by the loop's `except`, which logs and
sleeps); `parsed` is what `pd.read_csv` would yield during the attempt. -/
inductive Input where
  | sub (c : Cb)
  | unsub (c : Cb)
  | pollTick (mtime : Option Nat) (parsed : Option DataFrame)
  deriving DecidableEq

/-- One step of the manager under an external event. -/
def step (raises : Cb → Bool) (st : ManagerState) : Input → StepResult
  | Input.sub c => { state := subscribe st c, notified := [], broadcast := none }
  | Input.unsub c => { state := unsubscribe st c, notified := [], broadcast := none }
  | Input.pollTick none _ => { state := st, notified := [], broadcast := none }
  | Input.pollTick (some m) parsed =>
      if poll_signal st.last_modified m then handle_file_change raises st parsed m
      else { state := st, notified := [], broadcast := none }

/-- Run a list of events from a given state. -/
def runFrom (raises : Cb → Bool) (st : ManagerState) (inputs : List Input) : ManagerState :=
  inputs.foldl (fun s i => (step raises s i).state) st

/-- Run a list of events from the freshly initialised manager. -/
def runInputs (raises : Cb → Bool) (inputs : List Input) : ManagerState :=
  runFrom raises initState inputs

/-- Models `get_latest_data`. -/
def get_latest_data (st : ManagerState) : Option DataFrame :=
  st.last_data

/-- The dict returned by `get_data_summary`: either the error record
`{"error": "No data available"}` or the summary record; `numerical_summary`
is present only when there is at least one numeric column (its statistical
content is abstracted to the list of columns it covers). -/
inductive DataSummary where
  | noData
  | summary (timestamp : Nat) (total_rows : Nat) (columns : List String)
      (dateRange : Option Value × Option Value)
      (numerical_summary : Option (List String))
  deriving DecidableEq

/-- Models `get_data_summary`, with `now` the `datetime.now()` timestamp. -/
def get_data_summary (st : ManagerState) (now : Nat) : DataSummary :=
  match st.last_data with
  | none => DataSummary.noData
  | some df =>
      DataSummary.summary now df.rows.length df.columns (date_range df)
        (if (numeric_columns df).isEmpty then none else some (numeric_columns df))

/-- The summary record is present (keys timestamp, total_rows, columns,
date_range), regardless of the numerical summary. -/
def hasBaseShape : DataSummary → Bool
  | DataSummary.noData => false
  | DataSummary.summary _ _ _ _ _ => true

/-- The summary record is present and carries the `numerical_summary` key. -/
def hasFullShape : DataSummary → Bool
  | DataSummary.summary _ _ _ _ (some _) => true
  | _ => false

/-- Projection of the low-stock aggregate indicator out of a changes dict,
when it carries one. -/
def lowStockIndicator : Changes → Option Nat
  | Changes.initial_load _ => none
  | Changes.update _ inv => inv.map (fun p => p.1)

/-- Schema invariant: the stored snapshot, when present, has every required
column. -/
def schema_ok (st : ManagerState) : Bool :=
  match st.last_data with
  | none => true
  | some df => validate_columns df

/-- A row with the full 15-column layout and the given inventory level. -/
def mkRow (inv : Int) : List Value :=
  [Value.str "2024-01-01", Value.str "S001", Value.str "P001", Value.str "Groceries",
   Value.str "North", Value.int inv, Value.int 12, Value.int 7, Value.int 14,
   Value.int 30, Value.int 10, Value.str "Sunny", Value.int 0, Value.int 29,
   Value.str "Winter"]

/-- The five-row fixture with inventory values `[0, 5, 50, 0, 20]`. -/
def df5 : DataFrame :=
  { columns := expected_columns
    rows := [mkRow 0, mkRow 5, mkRow 50, mkRow 0, mkRow 20] }

/-- One-row snapshot with inventory level 0 (low and out of stock). -/
def S1x : DataFrame := { columns := expected_columns, rows := [mkRow 0] }

/-- One-row snapshot with inventory level 50 (neither low nor out). -/
def S2x : DataFrame := { columns := expected_columns, rows := [mkRow 50] }

/-- One-row valid snapshot used as a generic commit fixture. -/
def dfOne : DataFrame := { columns := expected_columns, rows := [mkRow 42] }

/-- A frame whose header misses the required `Price` column. -/
def dfNoPrice : DataFrame :=
  { columns := expected_columns.filter (fun c => !(c == "Price")), rows := [] }

/-- A header-only frame: all required columns, zero rows. -/
def dfEmpty : DataFrame := { columns := expected_columns, rows := [] }

/-- A callback-behaviour function under which no callback raises. -/
def rNone : Cb → Bool := fun _ => false

/-- A callback-behaviour function under which every callback raises. -/
def rAll : Cb → Bool := fun _ => true

/-- A state with two registered subscribers. -/
def stTwoSubs : ManagerState := { initState with subscribers := [1, 2] }

/-! ### Helper lemmas -/

/-- Dispatch invokes exactly the registered callbacks, in registration
order. -/
theorem notify_cb_map (raises : Cb → Bool) (d : DataFrame) (ch : Changes) :
    ∀ subs : List Cb, (notify_subscribers raises d ch subs).map Invocation.cb = subs := by
  intro subs
  induction subs with
  | nil => rfl
  | cons c rest ih => simp [notify_subscribers, ih]

/-- Every invocation of one dispatch carries the same (data, changes) pair. -/
theorem notify_pair (raises : Cb → Bool) (d : DataFrame) (ch : Changes) :
    ∀ subs : List Cb, ∀ i ∈ notify_subscribers raises d ch subs,
      i.data = d ∧ i.changes = ch := by
  intro subs
  induction subs with
  | nil => intro i hi; cases hi
  | cons c rest ih =>
      intro i hi
      cases hi with
      | head => exact ⟨rfl, rfl⟩
      | tail _ h => exact ih i h

/-- A registered callback is invoked in the dispatch. -/
theorem notify_mem (raises : Cb → Bool) (d : DataFrame) (ch : Changes)
    (subs : List Cb) (c : Cb) (hc : c ∈ subs) :
    ∃ i ∈ notify_subscribers raises d ch subs, i.cb = c := by
  have h : c ∈ (notify_subscribers raises d ch subs).map Invocation.cb := by
    rw [notify_cb_map]; exact hc
  rcases List.mem_map.mp h with ⟨i, hi, hic⟩
  exact ⟨i, hi, hic⟩

/-- A validated frame has the inventory column. -/
theorem validate_contains_inv (df : DataFrame) (h : validate_columns df = true) :
    df.columns.contains "Inventory Level" = true := by
  have h2 := List.all_eq_true.mp h
  exact h2 "Inventory Level" (by decide)

/-- Shape of a successful processing attempt. -/
theorem handle_valid (raises : Cb → Bool) (st : ManagerState) (df : DataFrame)
    (m : Nat) (hv : validate_columns df = true) :
    handle_file_change raises st (some df) m =
      { state := { st with last_modified := some m, last_data := some df }
        notified := notify_subscribers raises df (calculate_changes st.last_data df)
          st.subscribers
        broadcast := some (df, calculate_changes st.last_data df) } := by
  simp [handle_file_change, hv]

/-- A failed processing attempt changes nothing and notifies nobody. -/
theorem handle_invalid (raises : Cb → Bool) (st : ManagerState)
    (parsed : Option DataFrame) (m : Nat)
    (h : parsed = none ∨ ∃ df, parsed = some df ∧ validate_columns df = false) :
    handle_file_change raises st parsed m =
      { state := st, notified := [], broadcast := none } := by
  rcases h with h | ⟨df, hdf, hv⟩
  · rw [h]; rfl
  · rw [hdf]; simp [handle_file_change, hv]

/-- One step never clears an installed snapshot. -/
theorem step_preserves_some (raises : Cb → Bool) (st : ManagerState) (i : Input)
    (h : st.last_data.isSome = true) :
    ((step raises st i).state).last_data.isSome = true := by
  cases i with
  | sub c => exact h
  | unsub c => simp only [step, unsubscribe]; split <;> exact h
  | pollTick mtime parsed =>
      cases mtime with
      | none => exact h
      | some m =>
          simp only [step]
          split
          · cases parsed with
            | none => exact h
            | some df =>
                cases hv : validate_columns df with
                | false => simp [handle_file_change, hv]; exact h
                | true => simp [handle_file_change, hv]
          · exact h

/-- One step preserves the schema invariant. -/
theorem step_schema (raises : Cb → Bool) (st : ManagerState) (i : Input)
    (h : schema_ok st = true) :
    schema_ok ((step raises st i).state) = true := by
  cases i with
  | sub c => exact h
  | unsub c => simp only [step, unsubscribe]; split <;> exact h
  | pollTick mtime parsed =>
      cases mtime with
      | none => exact h
      | some m =>
          simp only [step]
          split
          · cases parsed with
            | none => exact h
            | some df =>
                cases hv : validate_columns df with
                | false => simp [handle_file_change, hv]; exact h
                | true => simp [handle_file_change, hv, schema_ok]
          · exact h

/-- Running events preserves the presence of an installed snapshot. -/
theorem runFrom_some (raises : Cb → Bool) (inputs : List Input) :
    ∀ st : ManagerState, st.last_data.isSome = true →
      (runFrom raises st inputs).last_data.isSome = true := by
  induction inputs with
  | nil => intro st h; exact h
  | cons i rest ih =>
      intro st h
      exact ih ((step raises st i).state) (step_preserves_some raises st i h)

/-- Running events preserves the schema invariant. -/
theorem runFrom_schema (raises : Cb → Bool) (inputs : List Input) :
    ∀ st : ManagerState, schema_ok st = true →
      schema_ok (runFrom raises st inputs) = true := by
  induction inputs with
  | nil => intro st h; exact h
  | cons i rest ih =>
      intro st h
      exact ih ((step raises st i).state) (step_schema raises st i h)

/-! ### Claim theorems -/

/-- C1 (counterexample): committing S1 = one row at inventory 0, then S2 = one
row at inventory 50, the second Delta's inventory indicators are `(0, 0)` —
the counts over the new candidate S2 — although the counts over the previously
committed S1 are `(1, 1)`.  So the Update's aggregate indicators are not
computed against the previous snapshot. -/
theorem C1_counterexample :
    (handle_file_change rNone (handle_file_change rNone initState (some S1x) 1).state
        (some S2x) 2).broadcast =
      some (S2x, Changes.update 1 (some (0, 0))) ∧
    countLowStock S1x = 1 ∧ countOutOfStock S1x = 1 ∧
    countLowStock S2x = 0 ∧ countOutOfStock S2x = 0 := by
  refine ⟨?_, ?_, ?_, ?_, ?_⟩ <;> decide

/-- C1 (amended): with no prior data, the first committed valid candidate
yields an initial-load Delta; the second yields an update Delta whose
low-stock and out-of-stock indicators are the counts over the new candidate
S2 itself (the previous snapshot is consulted only for the presence of the
inventory column). -/
theorem C1_amended_update_indicators (raises : Cb → Bool) (st : ManagerState)
    (S1 S2 : DataFrame) (m1 m2 : Nat)
    (h0 : st.last_data = none)
    (h1 : validate_columns S1 = true) (h2 : validate_columns S2 = true) :
    (handle_file_change raises st (some S1) m1).broadcast =
      some (S1, Changes.initial_load S1.rows.length) ∧
    (handle_file_change raises (handle_file_change raises st (some S1) m1).state
        (some S2) m2).broadcast =
      some (S2, Changes.update S2.rows.length
        (some (countLowStock S2, countOutOfStock S2))) := by
  have e1 := handle_valid raises st S1 m1 h1
  constructor
  · rw [e1]
    simp [calculate_changes, h0]
  · rw [e1, handle_valid raises _ S2 m2 h2]
    simp only [calculate_changes]
    rw [validate_contains_inv S1 h1, validate_contains_inv S2 h2]
    simp

/-- C1 (witness): the amended statement at the concrete pair S1x, S2x. -/
theorem C1_witness :
    (handle_file_change rNone initState (some S1x) 1).broadcast =
      some (S1x, Changes.initial_load S1x.rows.length) ∧
    (handle_file_change rNone (handle_file_change rNone initState (some S1x) 1).state
        (some S2x) 2).broadcast =
      some (S2x, Changes.update S2x.rows.length
        (some (countLowStock S2x, countOutOfStock S2x))) :=
  C1_amended_update_indicators rNone initState S1x S2x 1 2 rfl (by decide) (by decide)

/-- C2 (counterexample): on the five-row fixture with inventory values
`[0, 5, 50, 0, 20]`, the first successful commit broadcasts the initial-load
changes record, which carries no low-stock indicator at all (so not 3). -/
theorem C2_counterexample :
    (handle_file_change rNone initState (some df5) 1).broadcast =
      some (df5, Changes.initial_load 5) ∧
    lowStockIndicator (Changes.initial_load 5) = none := by
  exact ⟨by decide, rfl⟩

/-- C2 (amended): on that fixture the first commit's Delta is the bare
initial-load record; it is the first update Delta (the second commit) that
carries low-stock = 3 and out-of-stock = 2. -/
theorem C2_amended_first_update_indicators :
    (handle_file_change rNone initState (some df5) 1).broadcast =
      some (df5, Changes.initial_load 5) ∧
    (handle_file_change rNone (handle_file_change rNone initState (some df5) 1).state
        (some df5) 2).broadcast =
      some (df5, Changes.update 5 (some (3, 2))) := by
  exact ⟨by decide, by decide⟩

/-- C3: a processing attempt in which parsing raises, or whose candidate
misses a required column, is a no-op: the returned state is the old state
(`last_data` and `last_modified` untouched), no subscriber is invoked and
nothing is broadcast.  (The model's totality reflects that the method's
`except` swallows the exception.) -/
theorem C3_failed_attempt_is_noop (raises : Cb → Bool) (st : ManagerState)
    (parsed : Option DataFrame) (m : Nat)
    (h : parsed = none ∨ ∃ df, parsed = some df ∧ validate_columns df = false) :
    handle_file_change raises st parsed m =
      { state := st, notified := [], broadcast := none } :=
  handle_invalid raises st parsed m h

/-- C3 (witness): the frame missing the `Price` column aborts the attempt
from the initial state. -/
theorem C3_witness :
    handle_file_change rNone initState (some dfNoPrice) 5 =
      { state := initState, notified := [], broadcast := none } :=
  C3_failed_attempt_is_noop rNone initState (some dfNoPrice) 5
    (Or.inr ⟨dfNoPrice, rfl, by decide⟩)

/-- C4: under any raising behaviour of the callbacks, a dispatch invokes
every registered callback (in registration order) with none skipped, leaves
the subscriber list unchanged, and a callback — raising or not — is invoked
again in the following dispatch. -/
theorem C4_subscriber_fault_isolation (raises : Cb → Bool) (st : ManagerState)
    (df df2 : DataFrame) (m m2 : Nat) (c : Cb)
    (hv : validate_columns df = true) (hv2 : validate_columns df2 = true)
    (hc : c ∈ st.subscribers) :
    (handle_file_change raises st (some df) m).notified.map Invocation.cb =
      st.subscribers ∧
    (handle_file_change raises st (some df) m).state.subscribers = st.subscribers ∧
    (∃ i ∈ (handle_file_change raises st (some df) m).notified, i.cb = c) ∧
    (∃ i ∈ (handle_file_change raises (handle_file_change raises st (some df) m).state
        (some df2) m2).notified, i.cb = c) := by
  rw [handle_valid raises st df m hv]
  refine ⟨notify_cb_map raises df _ st.subscribers, rfl,
    notify_mem raises df _ st.subscribers c hc, ?_⟩
  rw [handle_valid raises _ df2 m2 hv2]
  exact notify_mem raises df2 _ _ c hc

/-- C4 (witness): two registered callbacks that both raise are each invoked
in two consecutive dispatches and stay registered. -/
theorem C4_witness :
    (handle_file_change rAll stTwoSubs (some dfOne) 1).notified.map Invocation.cb =
      stTwoSubs.subscribers ∧
    (handle_file_change rAll stTwoSubs (some dfOne) 1).state.subscribers =
      stTwoSubs.subscribers :=
  ⟨(C4_subscriber_fault_isolation rAll stTwoSubs dfOne dfOne 1 2 1
      (by decide) (by decide) (by decide)).1,
   (C4_subscriber_fault_isolation rAll stTwoSubs dfOne dfOne 1 2 1
      (by decide) (by decide) (by decide)).2.1⟩

/-- C5 (counterexample): a single registered callback (id 7) raises during
the dispatch of a successful commit, yet the subscriber list after the
dispatch still contains it — the subscription is not destroyed by the fatal
local error. -/
theorem C5_counterexample :
    (handle_file_change (fun c => c == 7) { initState with subscribers := [7] }
        (some dfOne) 1).notified =
      [{ cb := 7, data := dfOne, changes := Changes.initial_load 1, raised := true }] ∧
    (handle_file_change (fun c => c == 7) { initState with subscribers := [7] }
        (some dfOne) 1).state.subscribers = [7] := by
  exact ⟨by decide, by decide⟩

/-- C5 (amended): a subscription is destroyed only by an explicit
unsubscribe; a callback that raises during dispatch remains registered. -/
theorem C5_amended_unsubscribe_only (st : ManagerState) (c : Cb)
    (raises : Cb → Bool) (df : DataFrame) (m : Nat)
    (hv : validate_columns df = true) (_hr : raises c = true)
    (hc : c ∈ st.subscribers) :
    c ∈ (handle_file_change raises st (some df) m).state.subscribers ∧
    (unsubscribe st c).subscribers = st.subscribers.erase c := by
  constructor
  · rw [handle_valid raises st df m hv]
    exact hc
  · rw [unsubscribe]
    split
    · rfl
    · rename_i hmem
      rw [List.erase_of_not_mem]
      intro habs
      exact hmem (List.elem_iff.mpr habs)

/-- C5 (witness): the amended statement at callback 1 of the two-subscriber
state, with every callback raising. -/
theorem C5_witness :
    1 ∈ (handle_file_change rAll stTwoSubs (some dfOne) 4).state.subscribers ∧
    (unsubscribe stTwoSubs 1).subscribers = stTwoSubs.subscribers.erase 1 :=
  C5_amended_unsubscribe_only stTwoSubs 1 rAll dfOne 4 (by decide) rfl (by decide)

/-- C6 (counterexample): the same callback reference (id 3) passed to
subscribe twice is registered twice and is invoked twice in a single
dispatch — not at most once. -/
theorem C6_counterexample :
    (runInputs rNone [Input.sub 3, Input.sub 3]).subscribers = [3, 3] ∧
    ((handle_file_change rNone (runInputs rNone [Input.sub 3, Input.sub 3])
        (some dfOne) 1).notified.filter (fun i => i.cb == 3)).length = 2 := by
  exact ⟨by decide, by decide⟩

/-- C6 (amended): a dispatch invokes each entry of the subscriber list
exactly once, in order — so a callback registered n times is invoked n
times — and every invocation receives the same (snapshot, changes) pair. -/
theorem C6_amended_per_registration_dispatch (raises : Cb → Bool)
    (st : ManagerState) (df : DataFrame) (m : Nat)
    (hv : validate_columns df = true) :
    (handle_file_change raises st (some df) m).notified.map Invocation.cb =
      st.subscribers ∧
    (∀ i ∈ (handle_file_change raises st (some df) m).notified,
      i.data = df ∧ i.changes = calculate_changes st.last_data df) := by
  rw [handle_valid raises st df m hv]
  exact ⟨notify_cb_map raises df _ st.subscribers,
    notify_pair raises df _ st.subscribers⟩

/-- C6 (witness): the amended statement's invocation list at the
two-subscriber state. -/
theorem C6_witness :
    (handle_file_change rNone stTwoSubs (some dfOne) 1).notified.map Invocation.cb =
      stTwoSubs.subscribers :=
  (C6_amended_per_registration_dispatch rNone stTwoSubs dfOne 1 (by decide)).1

/-- C7 (counterexample): with the source at modification time 5 but missing
the `Price` column, the loop's change test signals at marker 5, the
processing attempt fails leaving `last_modified` untouched, and the next
poll signals again for the very same marker 5 — so the watcher does signal
twice for one marker value. -/
theorem C7_counterexample :
    poll_signal initState.last_modified 5 = true ∧
    (step rNone initState (Input.pollTick (some 5) (some dfNoPrice))).state =
      initState ∧
    poll_signal
      ((step rNone initState (Input.pollTick (some 5) (some dfNoPrice))).state).last_modified
      5 = true := by
  refine ⟨rfl, by decide, by decide⟩

/-- C7 (amended): the loop's change test signals exactly when the source's
modification time is strictly greater than the marker recorded by the last
successful commit (or when no commit has recorded one — in particular it
re-signals the same marker after a failed attempt); a `stat` failure is
swallowed, changing nothing and notifying nobody; and after a successful
commit at marker m the test no longer signals at m. -/
theorem C7_amended_poll_semantics (raises : Cb → Bool) (st : ManagerState)
    (m : Nat) (parsed : Option DataFrame) (df : DataFrame) :
    step raises st (Input.pollTick none parsed) =
      { state := st, notified := [], broadcast := none } ∧
    (poll_signal st.last_modified m = true ↔
      st.last_modified = none ∨ ∃ lm, st.last_modified = some lm ∧ lm < m) ∧
    (validate_columns df = true →
      poll_signal
        ((handle_file_change raises st (some df) m).state).last_modified m = false) := by
  refine ⟨rfl, ?_, ?_⟩
  · cases h : st.last_modified with
    | none => simp [poll_signal]
    | some lm => simp [poll_signal]
  · intro hv
    rw [handle_valid raises st df m hv]
    simp [poll_signal, Nat.lt_irrefl]

/-- C7 (witness): a successful commit at marker 3 stops the test signaling
at marker 3. -/
theorem C7_witness :
    validate_columns dfOne = true ∧
    poll_signal
      ((handle_file_change rNone initState (some dfOne) 3).state).last_modified 3 =
      false :=
  ⟨by decide, (C7_amended_poll_semantics rNone initState 3 none dfOne).2.2 (by decide)⟩

/-- C8 (counterexample): after a successful one-row commit, a later candidate
with every required column but zero rows passes validation and is committed,
so `get_latest_data` returns a zero-row snapshot although a commit had
succeeded before. -/
theorem C8_counterexample :
    (runInputs rNone [Input.pollTick (some 1) (some dfOne)]).last_data.isSome =
      true ∧
    get_latest_data (runInputs rNone
      [Input.pollTick (some 1) (some dfOne),
       Input.pollTick (some 2) (some dfEmpty)]) = some dfEmpty ∧
    dfEmpty.rows.length = 0 := by
  refine ⟨by decide, by decide, rfl⟩

/-- C8 (amended): once a commit has succeeded, `get_latest_data` never again
returns no snapshot — the installed snapshot persists across every further
event — though a later committed snapshot may have zero rows. -/
theorem C8_amended_snapshot_persistence (raises : Cb → Bool)
    (inputs more : List Input)
    (h : (runInputs raises inputs).last_data.isSome = true) :
    (runInputs raises (inputs ++ more)).last_data.isSome = true := by
  have e : runInputs raises (inputs ++ more) =
      runFrom raises (runInputs raises inputs) more := by
    simp [runInputs, runFrom, List.foldl_append]
  rw [e]
  exact runFrom_some raises more _ h

/-- C8 (witness): the amended statement on the one-row commit followed by the
empty commit. -/
theorem C8_witness :
    (runInputs rNone ([Input.pollTick (some 1) (some dfOne)] ++
        [Input.pollTick (some 2) (some dfEmpty)])).last_data.isSome = true :=
  C8_amended_snapshot_persistence rNone [Input.pollTick (some 1) (some dfOne)]
    [Input.pollTick (some 2) (some dfEmpty)] (by decide)

/-- C9 (counterexample): before any commit, `get_data_summary` returns the
error record, which carries none of the summary keys — so the result does
not always have the shape { timestamp, totalRows, columns, dateRange,
numericSummary }. -/
theorem C9_counterexample :
    get_data_summary initState 0 = DataSummary.noData ∧
    hasBaseShape (get_data_summary initState 0) = false ∧
    hasFullShape (get_data_summary initState 0) = false := by
  exact ⟨rfl, rfl, rfl⟩

/-- C9 (amended): `get_data_summary` returns the summary record — timestamp,
total rows, column list and date range — exactly when a snapshot is present,
and that record carries the numerical summary exactly when the snapshot has
at least one numeric column; with no snapshot it returns the error record. -/
theorem C9_amended_summary_shape (st : ManagerState) (now : Nat) :
    (hasBaseShape (get_data_summary st now) = st.last_data.isSome) ∧
    (∀ df, st.last_data = some df →
      get_data_summary st now =
        DataSummary.summary now df.rows.length df.columns (date_range df)
          (if (numeric_columns df).isEmpty then none
           else some (numeric_columns df)) ∧
      hasFullShape (get_data_summary st now) = !(numeric_columns df).isEmpty) := by
  cases h : st.last_data with
  | none =>
      refine ⟨by simp [get_data_summary, h, hasBaseShape], ?_⟩
      intro df hdf
      cases hdf
  | some df0 =>
      refine ⟨by simp [get_data_summary, h, hasBaseShape], ?_⟩
      intro df hdf
      injection hdf with he
      subst he
      refine ⟨by simp [get_data_summary, h], ?_⟩
      cases hne : (numeric_columns df0).isEmpty with
      | true => simp [get_data_summary, h, hne, hasFullShape]
      | false => simp [get_data_summary, h, hne, hasFullShape]

/-- C9 (witness): the amended statement at a state holding the one-row
snapshot. -/
theorem C9_witness :
    get_data_summary { initState with last_data := some dfOne } 7 =
      DataSummary.summary 7 dfOne.rows.length dfOne.columns (date_range dfOne)
        (if (numeric_columns dfOne).isEmpty then none
         else some (numeric_columns dfOne)) ∧
    hasFullShape (get_data_summary { initState with last_data := some dfOne } 7) =
      !(numeric_columns dfOne).isEmpty :=
  (C9_amended_summary_shape { initState with last_data := some dfOne } 7).2 dfOne rfl

/-- C10: in every state reachable from initialisation under any sequence of
subscription changes and loop iterations, the stored snapshot is either
absent or contains all 15 required columns — `last_data` is assigned only
after column validation succeeds. -/
theorem C10_schema_invariant (raises : Cb → Bool) (inputs : List Input) :
    schema_ok (runInputs raises inputs) = true :=
  runFrom_schema raises inputs initState rfl

end InventoryOpt
